import Mathlib

/-!
# Verification of the creator-analytics prediction engine

A shallow embedding of `backend/app/ml/prediction_engine.py` and
`backend/app/api/predictions.py`.  Python floats are modelled as rationals;
the transcendental library calls (`np.sin`, `np.cos`, `np.log1p`, `np.pi`)
are abstracted into a `NumLib` record of rational-valued functions, since
none of the verified properties depend on their values.  Python `int()`
truncation and `round(x, 2)` (round-half-to-even) are modelled exactly.
-/

/-- Abstraction of the numpy transcendental functions used by the engine. -/
structure NumLib where
  pi : ℚ
  sin : ℚ → ℚ
  cos : ℚ → ℚ
  log1p : ℚ → ℚ

/-- A trivial instantiation of `NumLib` (all functions zero), used to
evaluate the model on concrete inputs.  `log1p 0 = 0` agrees with numpy. -/
def numLib0 : NumLib :=
  { pi := 0, sin := fun _ => 0, cos := fun _ => 0, log1p := fun _ => 0 }

/-- Python `int()` on a float: truncation toward zero. -/
def pyInt (q : ℚ) : ℤ := if q < 0 then ⌈q⌉ else ⌊q⌋

/-- Round to the nearest integer, ties to even (Python `round` semantics). -/
def roundHalfEven (q : ℚ) : ℤ :=
  if q - (⌊q⌋ : ℚ) < 1/2 then ⌊q⌋
  else if 1/2 < q - (⌊q⌋ : ℚ) then ⌊q⌋ + 1
  else if ⌊q⌋ % 2 = 0 then ⌊q⌋ else ⌊q⌋ + 1

/-- Python `round(x, 2)`. -/
def pyRound2 (q : ℚ) : ℚ := (roundHalfEven (q * 100) : ℚ) / 100

/-- Python `d.get(k, dflt)` on a string-keyed dict of floats. -/
def dictGet (d : List (String × ℚ)) (k : String) (dflt : ℚ) : ℚ :=
  match d.find? (fun p => p.1 == k) with
  | some p => p.2
  | none => dflt

/-- Python `c in s` for a single character. -/
def char_in (c : Char) (s : String) : Bool := s.data.contains c

/-- Substring test on character lists. -/
def sub_aux (n : List Char) : List Char → Bool
  | [] => n.isEmpty
  | c :: t => n.isPrefixOf (c :: t) || sub_aux n t

/-- Python `needle in haystack` on strings (substring containment). -/
def str_in (needle haystack : String) : Bool := sub_aux needle.data haystack.data

/-- Python `s.lower()` (ASCII captions), character by character. -/
def py_lower (s : String) : String := String.mk (s.data.map Char.toLower)

/-- Python truthiness of an `Optional[float]`: `None` and `0.0` are falsy. -/
def truthyFloatOpt : Option ℚ → Bool
  | none => false
  | some d => d != 0

/-- Python `x or 0` collapsed for `Optional[float]` values. -/
def orZero : Option ℚ → ℚ
  | none => 0
  | some d => d

/-- `np.mean` of a list of floats. -/
def np_mean (l : List ℚ) : ℚ := l.sum / (l.length : ℚ)

/-- Python `sorted` on a list of strings. -/
def py_sorted (l : List String) : List String :=
  List.insertionSort (fun a b : String => a ≤ b) l

/-- `PredictionInput` dataclass. -/
structure PredictionInput where
  platform : String
  content_type : String
  caption : String
  hashtags : List String
  media_count : ℤ
  video_duration : Option ℚ
  posting_hour : ℤ
  day_of_week : ℤ
  creator_followers : ℤ
  creator_engagement_rate : ℚ
  creator_avg_views : ℚ
  historical_performance : List (List (String × ℚ))
deriving DecidableEq

/-- The engine's static `feature_weights` table (`_initialize_weights`). -/
def feature_weights : List (String × ℚ) :=
  [("caption_length", 0.05), ("hashtag_count", 0.08), ("hashtag_relevance", 0.12),
   ("media_quality", 0.10), ("content_type_video", 0.08), ("content_type_carousel", 0.05),
   ("posting_hour", 0.07), ("day_of_week", 0.04),
   ("follower_count", 0.08), ("engagement_rate", 0.15), ("avg_views", 0.10),
   ("consistency", 0.05),
   ("recent_performance", 0.08), ("trend_alignment", 0.05)]

/-- `_extract_features`: the 12-entry feature dict. -/
def extract_features (nl : NumLib) (i : PredictionInput) : List (String × ℚ) :=
  [("caption_length", min ((i.caption.length : ℚ) / 280) 1),
   ("hashtag_count", min ((i.hashtags.length : ℚ) / 30) 1),
   ("media_count", min ((i.media_count : ℚ) / 10) 1),
   ("is_video", if i.content_type ∈ (["video", "reel", "short"] : List String) then 1 else 0),
   ("video_duration",
     if truthyFloatOpt i.video_duration then min (orZero i.video_duration / 60) 1 else 0.5),
   ("posting_hour_sin", nl.sin (2 * nl.pi * (i.posting_hour : ℚ) / 24)),
   ("posting_hour_cos", nl.cos (2 * nl.pi * (i.posting_hour : ℚ) / 24)),
   ("day_of_week_sin", nl.sin (2 * nl.pi * (i.day_of_week : ℚ) / 7)),
   ("day_of_week_cos", nl.cos (2 * nl.pi * (i.day_of_week : ℚ) / 7)),
   ("log_followers", nl.log1p (i.creator_followers : ℚ) / 25),
   ("engagement_rate", min (i.creator_engagement_rate * 10) 1),
   ("log_avg_views", nl.log1p i.creator_avg_views / 20)]

/-- Per-platform multipliers used by `_run_prediction_models`. -/
structure PlatformMultipliers where
  views : ℚ
  likes : ℚ
  comments : ℚ
  shares : ℚ
deriving DecidableEq

/-- The `platform_multipliers` dict. -/
def platform_multipliers : List (String × PlatformMultipliers) :=
  [("youtube", ⟨1.5, 0.8, 0.7, 0.6⟩),
   ("tiktok", ⟨2.0, 1.2, 0.9, 1.5⟩),
   ("instagram", ⟨1.2, 1.1, 0.8, 0.5⟩),
   ("twitter", ⟨0.8, 1.0, 1.2, 1.3⟩),
   ("linkedin", ⟨0.7, 0.9, 1.4, 1.1⟩),
   ("facebook", ⟨0.9, 1.0, 0.8, 0.9⟩),
   ("twitch", ⟨1.3, 0.7, 1.5, 0.5⟩)]

/-- `platform_multipliers.get(platform, platform_multipliers["youtube"])`. -/
def get_multipliers (platform : String) : PlatformMultipliers :=
  match platform_multipliers.find? (fun q => q.1 == platform) with
  | some q => q.2
  | none => ⟨1.5, 0.8, 0.7, 0.6⟩

/-- The dict returned by `_run_prediction_models` (integer counts, float
confidence). -/
structure ModelOutput where
  views : ℤ
  likes : ℤ
  comments : ℤ
  shares : ℤ
  confidence : ℚ
deriving DecidableEq

/-- `_run_prediction_models`, parameterised by the engine's
`feature_weights` table `fw` (which only feeds the unused
`base_engagement`). -/
def run_prediction_models (fw : List (String × ℚ)) (features : List (String × ℚ))
    (platform : String) : ModelOutput :=
  let multipliers := get_multipliers platform
  let base_engagement := (fw.map (fun kv => dictGet features kv.1 0 * kv.2)).sum
  let views := (dictGet features "log_followers" 0.5 * 100 +
                dictGet features "log_avg_views" 0.5 * 50) * multipliers.views
  let likes := views * (0.02 + dictGet features "engagement_rate" 0.05 * 0.1) * multipliers.likes
  let comments := likes * (0.05 + dictGet features "engagement_rate" 0.05 * 0.1) *
                  multipliers.comments
  let shares := likes * 0.02 * multipliers.shares
  let confidence := min 0.95 (0.5 + (features.length : ℚ) * 0.05)
  let _ := base_engagement
  { views := max 100 (pyInt views),
    likes := max 10 (pyInt likes),
    comments := max 1 (pyInt comments),
    shares := max 0 (pyInt shares),
    confidence := confidence }

/-- `_calculate_engagement_rate` (its `input_data` argument is unused in the
source as well). -/
def calculate_engagement_rate (predictions : ModelOutput) (_i : PredictionInput) : ℚ :=
  let total_engagements := predictions.likes + predictions.comments * 2 + predictions.shares * 3
  if predictions.views > 0 then
    min 50 (pyRound2 ((total_engagements : ℚ) / (predictions.views : ℚ) * 100))
  else 0

/-- `_analyze_factors`. -/
def analyze_factors (features : List (String × ℚ)) (predictions : ModelOutput) :
    List (String × ℚ) :=
  [("timing_impact", pyRound2 ((dictGet features "posting_hour_sin" 0 + 1) * 10)),
   ("content_quality", pyRound2 (dictGet features "is_video" 0.5 * 30 +
      dictGet features "caption_length" 0.5 * 20)),
   ("creator_strength", pyRound2 (dictGet features "engagement_rate" 0.5 * 40 +
      dictGet features "log_followers" 0.5 * 20)),
   ("hashtag_power", pyRound2 (dictGet features "hashtag_count" 0.5 * 25)),
   ("momentum_factor", pyRound2 (min 1 predictions.confidence * 30))]

/-- The recommendation messages of `_generate_recommendations`, with the
formatted data carried as constructor arguments. -/
inductive Rec where
  | caption_more_context
  | caption_shorter
  | add_hashtags
  | reduce_hashtags
  | best_times (hours : List ℤ)
  | add_media
  | shorter_videos (seconds : ℤ)
deriving DecidableEq

/-- `_get_best_posting_hours`. -/
def get_best_posting_hours (platform : String) : List ℤ :=
  match ([("youtube", ([14, 15, 16, 17, 18] : List ℤ)),
          ("tiktok", [7, 8, 9, 12, 19, 20, 21]),
          ("instagram", [9, 12, 15, 18, 19, 20]),
          ("twitter", [8, 9, 12, 13, 17]),
          ("linkedin", [7, 8, 9, 10, 11]),
          ("facebook", [13, 14, 15, 16]),
          ("twitch", [18, 19, 20, 21, 22])] : List (String × List ℤ)).find?
        (fun q => q.1 == platform) with
  | some q => q.2
  | none => [9, 12, 15, 18]

/-- `_get_optimal_duration`. -/
def get_optimal_duration (platform : String) : ℤ :=
  match ([("youtube", (600 : ℤ)), ("tiktok", 30), ("instagram", 30),
          ("twitter", 60), ("linkedin", 120)] : List (String × ℤ)).find?
        (fun q => q.1 == platform) with
  | some q => q.2
  | none => 60

/-- `_generate_recommendations`. -/
def generate_recommendations (i : PredictionInput) (_predictions : ModelOutput)
    (_factors : List (String × ℚ)) : List Rec :=
  (if i.caption.length < 50 then [Rec.caption_more_context]
   else if i.caption.length > 250 then [Rec.caption_shorter] else []) ++
  (if i.hashtags.length = 0 then [Rec.add_hashtags]
   else if i.hashtags.length > 20 then [Rec.reduce_hashtags] else []) ++
  (if i.posting_hour ∈ get_best_posting_hours i.platform then []
   else [Rec.best_times (get_best_posting_hours i.platform)]) ++
  (if i.content_type = "text" ∧ i.creator_followers > 10000 then [Rec.add_media] else []) ++
  (if i.content_type ∈ (["video", "reel", "short"] : List String) then
    (if truthyFloatOpt i.video_duration ∧
        orZero i.video_duration > (get_optimal_duration i.platform : ℚ) * 1.5 then
      [Rec.shorter_videos (get_optimal_duration i.platform)]
     else [])
   else [])

/-- `EngagementPrediction` dataclass. -/
structure EngagementPrediction where
  predicted_likes : ℚ
  predicted_comments : ℚ
  predicted_shares : ℚ
  predicted_views : ℚ
  predicted_engagement_rate : ℚ
  confidence : ℚ
  factors : List (String × ℚ)
  recommendations : List Rec
deriving DecidableEq

/-- The cache-miss computation inside `predict_engagement` (feature
extraction, models, engagement rate, factors, recommendations). -/
def compute_engagement (nl : NumLib) (fw : List (String × ℚ)) (i : PredictionInput) :
    EngagementPrediction :=
  let features := extract_features nl i
  let predictions := run_prediction_models fw features i.platform
  let engagement_rate := calculate_engagement_rate predictions i
  let factors := analyze_factors features predictions
  let recommendations := generate_recommendations i predictions factors
  { predicted_likes := (predictions.likes : ℚ),
    predicted_comments := (predictions.comments : ℚ),
    predicted_shares := (predictions.shares : ℚ),
    predicted_views := (predictions.views : ℚ),
    predicted_engagement_rate := engagement_rate,
    confidence := predictions.confidence,
    factors := factors,
    recommendations := recommendations }

/-- The data serialised and hashed by `_generate_hash`; the MD5 digest is
modelled by the serialised data itself. -/
structure CacheKey where
  platform : String
  content_type : String
  caption : String
  hashtags : List String
  posting_hour : ℤ
  day_of_week : ℤ
deriving DecidableEq

/-- `_generate_hash`: platform, content type, caption truncated to 100
characters, sorted hashtags, posting hour, day of week. -/
def generate_hash (i : PredictionInput) : CacheKey :=
  { platform := i.platform,
    content_type := i.content_type,
    caption := i.caption.take 100,
    hashtags := py_sorted i.hashtags,
    posting_hour := i.posting_hour,
    day_of_week := i.day_of_week }

/-- The engine's in-memory cache dict. -/
def Cache : Type := CacheKey → Option EngagementPrediction

/-- A fresh engine's empty cache. -/
def emptyCache : Cache := fun _ => none

/-- `self.cache[input_hash] = result`. -/
def cacheInsert (c : Cache) (k : CacheKey) (v : EngagementPrediction) : Cache :=
  fun q => if q = k then some v else c q

/-- `predict_engagement`: on a cache hit (with `use_cache`) return the
stored value with the cache unchanged; otherwise compute and store. -/
def predict_engagement (nl : NumLib) (fw : List (String × ℚ)) (use_cache : Bool)
    (i : PredictionInput) (cache : Cache) : EngagementPrediction × Cache :=
  let input_hash := generate_hash i
  let result := compute_engagement nl fw i
  let onMiss := (result, cacheInsert cache input_hash result)
  if use_cache then
    match cache input_hash with
    | some cached => (cached, cache)
    | none => onMiss
  else onMiss

/-- The emotional-word list of `_assess_uniqueness`. -/
def emotional_words : List String :=
  ["amazing", "incredible", "shocking", "secret", "finally", "why"]

/-- `_assess_uniqueness`: base 0.5, +0.15 for a "?", +0.1 for a digit or
".", +0.15 for an emotional word in the lowercased caption, capped at 1. -/
def assess_uniqueness (i : PredictionInput) : ℚ :=
  let score : ℚ := 0.5
  let score := if str_in "?" i.caption then score + 0.15 else score
  let score := if ("1234567890.".data.any (fun c => char_in c i.caption)) then score + 0.1
               else score
  let score := if emotional_words.any (fun word => str_in word (py_lower i.caption)) then
                 score + 0.15
               else score
  min 1 score

/-- `_assess_timing`. -/
def assess_timing (i : PredictionInput) : ℚ :=
  let best_hours := get_best_posting_hours i.platform
  if i.posting_hour ∈ best_hours then 1
  else if |i.posting_hour - best_hours.headD 0| ≤ 2 then 0.7
  else 0.3

/-- The (empty) trending-hashtag list of `_assess_trend_alignment`. -/
def trending_hashtags : List String := []

/-- `_assess_trend_alignment`. -/
def assess_trend_alignment (i : PredictionInput) : ℚ :=
  let matched := (i.hashtags.filter (fun tag => trending_hashtags.contains tag)).length
  min 1 ((matched : ℚ) * 0.2 + 0.3)

/-- `_assess_creator_momentum`. -/
def assess_creator_momentum (i : PredictionInput) : ℚ :=
  if i.historical_performance = [] then 0.5
  else
    let recent_avg := np_mean ((i.historical_performance.drop
      (i.historical_performance.length - 5)).map (fun p => dictGet p "engagement_rate" 0))
    let historical_avg := np_mean (i.historical_performance.map
      (fun p => dictGet p "engagement_rate" 0))
    if recent_avg > historical_avg * 1.2 then 1
    else if recent_avg > historical_avg then 0.7
    else 0.5

/-- `_estimate_peak_time`. -/
def estimate_peak_time (i : PredictionInput) (factors : List (String × ℚ)) : ℤ :=
  let base_peak : ℤ := if i.content_type ∈ (["video", "reel", "short"] : List String) then 4
                       else 2
  let base_peak := if dictGet factors "content_uniqueness" 0.5 > 0.7 then base_peak + 3
                   else base_peak
  let base_peak := if i.creator_engagement_rate > 0.05 then base_peak - 1 else base_peak
  max 1 base_peak

/-- The recommendation messages of `_generate_virality_recommendations`. -/
inductive VRec where
  | shareable_content
  | unique_angle
  | use_trends
  | peak_hours
  | boost_post
deriving DecidableEq

/-- `_generate_virality_recommendations`. -/
def generate_virality_recommendations (factors : List (String × ℚ)) (score : ℚ) : List VRec :=
  (if dictGet factors "share_rate" 0 < 0.02 then [VRec.shareable_content] else []) ++
  (if dictGet factors "content_uniqueness" 0 < 0.5 then [VRec.unique_angle] else []) ++
  (if dictGet factors "trend_alignment" 0 < 0.5 then [VRec.use_trends] else []) ++
  (if dictGet factors "timing_score" 0 < 0.5 then [VRec.peak_hours] else []) ++
  (if score ≥ 80 then [VRec.boost_post] else [])

/-- The `viral_factors` dict of `predict_virality`. -/
def viral_factors (i : PredictionInput) (p : EngagementPrediction) : List (String × ℚ) :=
  [("engagement_rate_ratio", p.predicted_engagement_rate / max i.creator_engagement_rate 0.01),
   ("share_rate", p.predicted_shares / max p.predicted_likes 1),
   ("comment_depth", p.predicted_comments / max p.predicted_shares 1),
   ("content_uniqueness", assess_uniqueness i),
   ("timing_score", assess_timing i),
   ("trend_alignment", assess_trend_alignment i),
   ("creator_momentum", assess_creator_momentum i)]

/-- The `weights` dict of `predict_virality`. -/
def virality_weights : List (String × ℚ) :=
  [("engagement_rate_ratio", 0.20), ("share_rate", 0.25), ("comment_depth", 0.10),
   ("content_uniqueness", 0.15), ("timing_score", 0.10), ("trend_alignment", 0.10),
   ("creator_momentum", 0.10)]

/-- The weighted sum `sum(viral_factors[k] * weights[k] for k in weights)`. -/
def virality_raw_score (i : PredictionInput) (p : EngagementPrediction) : ℚ :=
  (virality_weights.map (fun kv => dictGet (viral_factors i p) kv.1 0 * kv.2)).sum

/-- The clamped score `min(100, max(0, score * 20))` — the value the tier,
probability and recommendations are computed from, before the 2-decimal
rounding applied to the returned `score` field. -/
def virality_clamped_score (i : PredictionInput) (p : EngagementPrediction) : ℚ :=
  min 100 (max 0 (virality_raw_score i p * 20))

/-- `ViralityScore` dataclass. -/
structure ViralityScore where
  score : ℚ
  tier : String
  probability : ℚ
  estimated_reach : ℤ
  estimated_peak_time_hours : ℤ
  recommendations : List VRec
deriving DecidableEq

/-- `predict_virality`. -/
def predict_virality (i : PredictionInput) (p : EngagementPrediction) : ViralityScore :=
  let factors := viral_factors i p
  let score := virality_clamped_score i p
  let tier := if score ≥ 80 then "viral"
              else if score ≥ 60 then "high"
              else if score ≥ 40 then "average"
              else "low"
  let estimated_reach := pyInt ((i.creator_followers : ℚ) * (1 + score / 100) *
    dictGet factors "content_uniqueness" 0)
  let estimated_peak := estimate_peak_time i factors
  let recommendations := generate_virality_recommendations factors score
  { score := pyRound2 score,
    tier := tier,
    probability := min 1 (score / 100 + 0.1),
    estimated_reach := estimated_reach,
    estimated_peak_time_hours := estimated_peak,
    recommendations := recommendations }

/-- `EngagementPredictRequest` (the API request model, with its pydantic
`Field` bounds checked by `validate_request`). -/
structure EngagementPredictRequest where
  platform : String
  content_type : String
  caption : String
  hashtags : List String
  media_count : ℤ
  video_duration : Option ℚ
  posting_hour : ℤ
  day_of_week : ℤ
  creator_followers : ℤ
  creator_engagement_rate : ℚ
  creator_avg_views : ℚ
  historical_performance : Option (List (List (String × ℚ)))
deriving DecidableEq

/-- The pydantic `Field(ge=…, le=…)` constraints of
`EngagementPredictRequest`: `media_count` in 0–10, `video_duration ≥ 0`
when given, `posting_hour` in 0–23, `day_of_week` in 0–6,
`creator_followers ≥ 0`, `creator_engagement_rate` in 0–1,
`creator_avg_views ≥ 0`. -/
def validate_request (r : EngagementPredictRequest) : Bool :=
  decide (0 ≤ r.media_count ∧ r.media_count ≤ 10) &&
  (match r.video_duration with
   | none => true
   | some d => decide (0 ≤ d)) &&
  decide (0 ≤ r.posting_hour ∧ r.posting_hour ≤ 23) &&
  decide (0 ≤ r.day_of_week ∧ r.day_of_week ≤ 6) &&
  decide (0 ≤ r.creator_followers) &&
  decide (0 ≤ r.creator_engagement_rate ∧ r.creator_engagement_rate ≤ 1) &&
  decide (0 ≤ r.creator_avg_views)

/-- The request-to-input conversion performed by the API endpoints
(field-by-field copy, `historical_performance or []`). -/
def to_prediction_input (r : EngagementPredictRequest) : PredictionInput :=
  { platform := r.platform,
    content_type := r.content_type,
    caption := r.caption,
    hashtags := r.hashtags,
    media_count := r.media_count,
    video_duration := r.video_duration,
    posting_hour := r.posting_hour,
    day_of_week := r.day_of_week,
    creator_followers := r.creator_followers,
    creator_engagement_rate := r.creator_engagement_rate,
    creator_avg_views := r.creator_avg_views,
    historical_performance := r.historical_performance.getD [] }

/-- The input boundary: pydantic validation then conversion; an
out-of-range request is rejected, an in-range one is passed through
unchanged (no clamping). -/
def parse_request (r : EngagementPredictRequest) : Option PredictionInput :=
  if validate_request r then some (to_prediction_input r) else none

/-- Validity of a `PredictionInput`, as established by the API boundary. -/
def ValidInput (i : PredictionInput) : Prop :=
  0 ≤ i.media_count ∧ i.media_count ≤ 10 ∧
  0 ≤ i.video_duration.getD 0 ∧
  0 ≤ i.posting_hour ∧ i.posting_hour ≤ 23 ∧
  0 ≤ i.day_of_week ∧ i.day_of_week ≤ 6 ∧
  0 ≤ i.creator_followers ∧
  0 ≤ i.creator_engagement_rate ∧ i.creator_engagement_rate ≤ 1 ∧
  0 ≤ i.creator_avg_views

/-- One row of the `/batch` response. -/
structure VariantResult where
  variant : ℕ
  predicted_engagement_rate : ℚ
  predicted_views : ℚ
  confidence : ℚ
  top_factor : Option String
deriving DecidableEq

/-- Python `max(items, key=value)`: first item with maximal value. -/
def py_max_by_value (l : List (String × ℚ)) : Option (String × ℚ) :=
  l.foldl (fun acc p =>
    match acc with
    | none => some p
    | some q => if p.2 > q.2 then some p else some q) none

/-- The per-request loop of `batch_predict`, threading the engine cache. -/
def batch_loop (nl : NumLib) (fw : List (String × ℚ)) :
    List PredictionInput → Cache → ℕ → List VariantResult × Cache
  | [], c, _ => ([], c)
  | i :: rest, c, idx =>
    let pc := predict_engagement nl fw true i c
    let v : VariantResult :=
      { variant := idx + 1,
        predicted_engagement_rate := pc.1.predicted_engagement_rate,
        predicted_views := pc.1.predicted_views,
        confidence := pc.1.confidence,
        top_factor := (py_max_by_value pc.1.factors).map Prod.fst }
    let vc := batch_loop nl fw rest pc.2 (idx + 1)
    (v :: vc.1, vc.2)

/-- The descending order used by `results.sort(key=…, reverse=True)`. -/
def variant_order (a b : VariantResult) : Prop :=
  b.predicted_engagement_rate ≤ a.predicted_engagement_rate

instance : DecidableRel variant_order :=
  fun a b =>
    inferInstanceAs (Decidable (b.predicted_engagement_rate ≤ a.predicted_engagement_rate))

/-- Placeholder variant (never the value of any reachable index). -/
def nullVariant : VariantResult :=
  { variant := 0, predicted_engagement_rate := 0, predicted_views := 0,
    confidence := 0, top_factor := none }

/-- The `/batch` response body (the improvement tip modelled by its
percentage value). -/
structure BatchResult where
  predictions : List VariantResult
  best_variant : Option VariantResult
  improvement_tip : Option ℚ
deriving DecidableEq

/-- `batch_predict`: run every request through `predict_engagement`, sort
descending by predicted engagement rate, take the head as best variant,
and attach the improvement percentage versus the worst variant when there
are at least two results. -/
def batch_predict (nl : NumLib) (fw : List (String × ℚ)) (reqs : List PredictionInput)
    (c : Cache) : BatchResult × Cache :=
  let rc := batch_loop nl fw reqs c 0
  let results := List.insertionSort variant_order rc.1
  let tip := if results.length > 1 then
      some (((results.headD nullVariant).predicted_engagement_rate /
             (results.getLastD nullVariant).predicted_engagement_rate - 1) * 100)
    else none
  ({ predictions := results,
     best_variant := results.head?,
     improvement_tip := tip }, rc.2)

instance : IsTotal VariantResult variant_order :=
  ⟨fun a b => le_total b.predicted_engagement_rate a.predicted_engagement_rate⟩

instance : IsTrans VariantResult variant_order :=
  ⟨fun _ _ _ hab hbc => le_trans hbc hab⟩

/-- A concrete valid input used to evaluate the model. -/
def sample_valid_input : PredictionInput :=
  { platform := "youtube", content_type := "video", caption := "hi", hashtags := ["b", "a"],
    media_count := 1, video_duration := some 30, posting_hour := 12, day_of_week := 2,
    creator_followers := 5000, creator_engagement_rate := 0.02, creator_avg_views := 1000,
    historical_performance := [] }

/-- Same cache-key fields as `sample_valid_input` but different creator
statistics and history. -/
def collision_input : PredictionInput :=
  { platform := "youtube", content_type := "video", caption := "hi", hashtags := ["b", "a"],
    media_count := 1, video_duration := some 30, posting_hour := 12, day_of_week := 2,
    creator_followers := 900000, creator_engagement_rate := 0.4, creator_avg_views := 250000,
    historical_performance := [[("engagement_rate", 0.3)]] }

/-- Input driving the clamped virality score to 79.9951, which rounds to
80.00 while the tier is computed from the unrounded value. -/
def tier_gap_input : PredictionInput :=
  { platform := "youtube", content_type := "image", caption := "", hashtags := [],
    media_count := 1, video_duration := none, posting_hour := 14, day_of_week := 0,
    creator_followers := 1000, creator_engagement_rate := 480000/728951,
    creator_avg_views := 1000, historical_performance := [] }

/-- An engagement prediction with rate 12 (as produced for a creator with
zero followers and zero average views), fed into `predict_virality`. -/
def tier_gap_prediction : EngagementPrediction :=
  { predicted_likes := 10, predicted_comments := 1, predicted_shares := 0,
    predicted_views := 100, predicted_engagement_rate := 12, confidence := 0.95,
    factors := [], recommendations := [] }

/-- Input whose caption contains "?" and the emotional words "why" and
"amazing" but no digit and no ".". -/
def question_caption_input : PredictionInput :=
  { platform := "youtube", content_type := "image",
    caption := "why is this happening amazing?",
    hashtags := [], media_count := 1, video_duration := none, posting_hour := 12,
    day_of_week := 0, creator_followers := 1000, creator_engagement_rate := 0.02,
    creator_avg_views := 1000, historical_performance := [] }

/-- Input with a *present* video duration of 0 seconds. -/
def zero_duration_input : PredictionInput :=
  { platform := "youtube", content_type := "video", caption := "hello", hashtags := [],
    media_count := 1, video_duration := some 0, posting_hour := 12, day_of_week := 0,
    creator_followers := 1000, creator_engagement_rate := 0.02, creator_avg_views := 1000,
    historical_performance := [] }

/-- A request satisfying every declared pydantic bound. -/
def in_range_request : EngagementPredictRequest :=
  { platform := "youtube", content_type := "video", caption := "hi", hashtags := ["a"],
    media_count := 2, video_duration := some 30, posting_hour := 12, day_of_week := 3,
    creator_followers := 1000, creator_engagement_rate := 0.02, creator_avg_views := 1000,
    historical_performance := none }

/-- A request with `posting_hour = 24`, outside the declared 0–23 range. -/
def out_of_range_request : EngagementPredictRequest :=
  { platform := "youtube", content_type := "video", caption := "hi", hashtags := ["a"],
    media_count := 2, video_duration := some 30, posting_hour := 24, day_of_week := 3,
    creator_followers := 1000, creator_engagement_rate := 0.02, creator_avg_views := 1000,
    historical_performance := none }

theorem roundHalfEven_nonneg (q : ℚ) (h : 0 ≤ q) : 0 ≤ roundHalfEven q := by
  have hf : (0 : ℤ) ≤ ⌊q⌋ := Int.floor_nonneg.mpr h
  unfold roundHalfEven
  split_ifs <;> omega

theorem roundHalfEven_le (q : ℚ) (n : ℤ) (h : q ≤ (n : ℚ)) : roundHalfEven q ≤ n := by
  have hf : ⌊q⌋ ≤ n := by simpa using Int.floor_le_floor h
  unfold roundHalfEven
  split_ifs with h1 h2 h3
  · exact hf
  all_goals
    have h4 : (1 : ℚ) / 2 ≤ q - (⌊q⌋ : ℚ) := le_of_not_lt h1
  all_goals
    have h5 : (⌊q⌋ : ℚ) < (n : ℚ) := by linarith
  all_goals
    have h6 : ⌊q⌋ < n := by exact_mod_cast h5
  all_goals omega

theorem pyRound2_nonneg (q : ℚ) (h : 0 ≤ q) : 0 ≤ pyRound2 q := by
  unfold pyRound2
  have h1 : (0 : ℤ) ≤ roundHalfEven (q * 100) := roundHalfEven_nonneg _ (by positivity)
  have h2 : (0 : ℚ) ≤ (roundHalfEven (q * 100) : ℚ) := by exact_mod_cast h1
  positivity

theorem pyRound2_le (q : ℚ) (n : ℤ) (h : q ≤ (n : ℚ)) : pyRound2 q ≤ (n : ℚ) := by
  unfold pyRound2
  rw [div_le_iff (by norm_num : (0 : ℚ) < 100)]
  have h1 : roundHalfEven (q * 100) ≤ n * 100 := by
    refine roundHalfEven_le _ _ ?_
    push_cast
    linarith
  exact_mod_cast h1

theorem run_prediction_models_views_ge (fw features : List (String × ℚ)) (platform : String) :
    100 ≤ (run_prediction_models fw features platform).views := by
  simp only [run_prediction_models]
  exact le_max_left _ _

theorem run_prediction_models_likes_ge (fw features : List (String × ℚ)) (platform : String) :
    10 ≤ (run_prediction_models fw features platform).likes := by
  simp only [run_prediction_models]
  exact le_max_left _ _

theorem run_prediction_models_comments_ge (fw features : List (String × ℚ)) (platform : String) :
    1 ≤ (run_prediction_models fw features platform).comments := by
  simp only [run_prediction_models]
  exact le_max_left _ _

theorem run_prediction_models_shares_ge (fw features : List (String × ℚ)) (platform : String) :
    0 ≤ (run_prediction_models fw features platform).shares := by
  simp only [run_prediction_models]
  exact le_max_left _ _

theorem extract_features_length (nl : NumLib) (i : PredictionInput) :
    (extract_features nl i).length = 12 := rfl

theorem run_prediction_models_confidence (fw : List (String × ℚ)) (nl : NumLib)
    (i : PredictionInput) (platform : String) :
    (run_prediction_models fw (extract_features nl i) platform).confidence = 0.95 := by
  simp only [run_prediction_models, extract_features]
  norm_num

theorem calculate_engagement_rate_bounds (p : ModelOutput) (i : PredictionInput)
    (hl : 0 ≤ p.likes) (hc : 0 ≤ p.comments) (hs : 0 ≤ p.shares) (hv : 0 < p.views) :
    0 ≤ calculate_engagement_rate p i ∧ calculate_engagement_rate p i ≤ 50 := by
  unfold calculate_engagement_rate
  rw [if_pos hv]
  constructor
  · refine le_min (by norm_num) (pyRound2_nonneg _ ?_)
    have h1 : (0 : ℚ) ≤ ((p.likes + p.comments * 2 + p.shares * 3 : ℤ) : ℚ) := by
      exact_mod_cast by omega
    have h2 : (0 : ℚ) < (p.views : ℚ) := by exact_mod_cast hv
    positivity
  · exact min_le_left _ _

/-- C9: the static `feature_weights` table is a no-op — `predict_engagement`
returns the same prediction and cache for any two weight tables (in
particular for the engine's table and the empty one), because
`base_engagement` is computed and then never used. -/
theorem c9_feature_weights_noop (nl : NumLib) (fw1 fw2 : List (String × ℚ))
    (use_cache : Bool) (i : PredictionInput) (cache : Cache) :
    predict_engagement nl fw1 use_cache i cache =
      predict_engagement nl fw2 use_cache i cache := rfl

/-- C10: the extracted feature dict always has exactly 12 entries, so the
confidence returned by `predict_engagement` (computed as
`min(0.95, 0.5 + 12 * 0.05)`) is the constant 0.95, for every input. -/
theorem c10_confidence_constant (nl : NumLib) (i : PredictionInput) :
    (extract_features nl i).length = 12 ∧
    (compute_engagement nl feature_weights i).confidence = 0.95 ∧
    (predict_engagement nl feature_weights true i emptyCache).1.confidence = 0.95 := by
  refine ⟨extract_features_length nl i, ?_, ?_⟩ <;>
    simp [predict_engagement, emptyCache, compute_engagement,
      run_prediction_models_confidence]

/-- C5: `predict_engagement` is deterministic and idempotent — calling it a
second time with the identical input (creator statistics and history
included), on the cache state left by the first call, returns the same
prediction, whether the cache is enabled or disabled. -/
theorem c5_idempotent (nl : NumLib) (use_cache : Bool) (i : PredictionInput) (c : Cache) :
    (predict_engagement nl feature_weights use_cache i
        (predict_engagement nl feature_weights use_cache i c).2).1 =
      (predict_engagement nl feature_weights use_cache i c).1 := by
  cases use_cache with
  | false => rfl
  | true =>
    cases h : c (generate_hash i) with
    | some p => simp [predict_engagement, h]
    | none => simp [predict_engagement, h, cacheInsert]

/-- C2: two inputs that agree on platform, content type, the first 100
caption characters, the sorted hashtag list, posting hour and day of week
share the same cache key even when all creator statistics and history
differ; with caching on, the first call computes and stores its
prediction, and the second call returns that stored prediction with the
cache unchanged. -/
theorem c2_cross_creator_cache_collision (nl : NumLib) (i1 i2 : PredictionInput) (c0 : Cache)
    (hplat : i1.platform = i2.platform)
    (hct : i1.content_type = i2.content_type)
    (hcap : i1.caption.take 100 = i2.caption.take 100)
    (htags : py_sorted i1.hashtags = py_sorted i2.hashtags)
    (hhour : i1.posting_hour = i2.posting_hour)
    (hday : i1.day_of_week = i2.day_of_week)
    (hmiss : c0 (generate_hash i1) = none) :
    predict_engagement nl feature_weights true i1 c0 =
      (compute_engagement nl feature_weights i1,
       cacheInsert c0 (generate_hash i1) (compute_engagement nl feature_weights i1)) ∧
    predict_engagement nl feature_weights true i2
        (cacheInsert c0 (generate_hash i1) (compute_engagement nl feature_weights i1)) =
      (compute_engagement nl feature_weights i1,
       cacheInsert c0 (generate_hash i1) (compute_engagement nl feature_weights i1)) := by
  have hkey : generate_hash i1 = generate_hash i2 := by
    simp [generate_hash, hplat, hct, hcap, htags, hhour, hday]
  have hlook : cacheInsert c0 (generate_hash i1) (compute_engagement nl feature_weights i1)
      (generate_hash i2) = some (compute_engagement nl feature_weights i1) := by
    simp [cacheInsert, hkey]
  constructor
  · simp [predict_engagement, hmiss]
  · simp [predict_engagement, hlook]

/-- Witness for C2 at concrete inputs: `sample_valid_input` and
`collision_input` differ in followers, engagement rate, average views and
history but share the cache-key fields; on a fresh cache the second call
returns the first call's stored prediction. -/
theorem c2_cross_creator_cache_collision_witness :
    predict_engagement numLib0 feature_weights true sample_valid_input emptyCache =
      (compute_engagement numLib0 feature_weights sample_valid_input,
       cacheInsert emptyCache (generate_hash sample_valid_input)
         (compute_engagement numLib0 feature_weights sample_valid_input)) ∧
    predict_engagement numLib0 feature_weights true collision_input
        (cacheInsert emptyCache (generate_hash sample_valid_input)
          (compute_engagement numLib0 feature_weights sample_valid_input)) =
      (compute_engagement numLib0 feature_weights sample_valid_input,
       cacheInsert emptyCache (generate_hash sample_valid_input)
         (compute_engagement numLib0 feature_weights sample_valid_input)) :=
  c2_cross_creator_cache_collision numLib0 sample_valid_input collision_input emptyCache
    rfl rfl rfl rfl rfl rfl rfl

/-- C1: for every valid input, the computed engagement prediction satisfies
the floors views ≥ 100, likes ≥ 10, comments ≥ 1, shares ≥ 0, has
confidence in [0, 0.95] and engagement rate in [0, 50]. -/
theorem c1_engagement_prediction_floors (nl : NumLib) (i : PredictionInput)
    (h : ValidInput i) :
    100 ≤ (compute_engagement nl feature_weights i).predicted_views ∧
    10 ≤ (compute_engagement nl feature_weights i).predicted_likes ∧
    1 ≤ (compute_engagement nl feature_weights i).predicted_comments ∧
    0 ≤ (compute_engagement nl feature_weights i).predicted_shares ∧
    0 ≤ (compute_engagement nl feature_weights i).confidence ∧
    (compute_engagement nl feature_weights i).confidence ≤ 0.95 ∧
    0 ≤ (compute_engagement nl feature_weights i).predicted_engagement_rate ∧
    (compute_engagement nl feature_weights i).predicted_engagement_rate ≤ 50 := by
  have hv := run_prediction_models_views_ge feature_weights (extract_features nl i) i.platform
  have hl := run_prediction_models_likes_ge feature_weights (extract_features nl i) i.platform
  have hc := run_prediction_models_comments_ge feature_weights (extract_features nl i) i.platform
  have hs := run_prediction_models_shares_ge feature_weights (extract_features nl i) i.platform
  have hconf := run_prediction_models_confidence feature_weights nl i i.platform
  have hrate := calculate_engagement_rate_bounds
    (run_prediction_models feature_weights (extract_features nl i) i.platform) i
    (by omega) (by omega) hs (by omega)
  simp only [compute_engagement]
  exact ⟨by exact_mod_cast hv, by exact_mod_cast hl, by exact_mod_cast hc,
    by exact_mod_cast hs, by rw [hconf]; norm_num, by rw [hconf], hrate.1, hrate.2⟩

/-- Witness for C1: the floors evaluated on a concrete valid input. -/
theorem c1_engagement_prediction_floors_witness :
    ValidInput sample_valid_input ∧
    (100 ≤ (compute_engagement numLib0 feature_weights sample_valid_input).predicted_views ∧
     10 ≤ (compute_engagement numLib0 feature_weights sample_valid_input).predicted_likes ∧
     1 ≤ (compute_engagement numLib0 feature_weights sample_valid_input).predicted_comments ∧
     0 ≤ (compute_engagement numLib0 feature_weights sample_valid_input).predicted_shares ∧
     0 ≤ (compute_engagement numLib0 feature_weights sample_valid_input).confidence ∧
     (compute_engagement numLib0 feature_weights sample_valid_input).confidence ≤ 0.95 ∧
     0 ≤ (compute_engagement numLib0 feature_weights
            sample_valid_input).predicted_engagement_rate ∧
     (compute_engagement numLib0 feature_weights
        sample_valid_input).predicted_engagement_rate ≤ 50) :=
  ⟨by norm_num [ValidInput, sample_valid_input],
   c1_engagement_prediction_floors numLib0 sample_valid_input
     (by norm_num [ValidInput, sample_valid_input])⟩


/-- The virality score field equals the clamped score rounded to two
decimals. -/
theorem predict_virality_score_eq (i : PredictionInput) (p : EngagementPrediction) :
    (predict_virality i p).score = pyRound2 (virality_clamped_score i p) := rfl

/-- The tier is decided by the unrounded clamped score. -/
theorem predict_virality_tier_eq (i : PredictionInput) (p : EngagementPrediction) :
    (predict_virality i p).tier =
      (if virality_clamped_score i p ≥ 80 then "viral"
       else if virality_clamped_score i p ≥ 60 then "high"
       else if virality_clamped_score i p ≥ 40 then "average"
       else "low") := rfl

/-- The weighted virality sum, with the dict lookups resolved. -/
theorem virality_raw_score_eq (i : PredictionInput) (p : EngagementPrediction) :
    virality_raw_score i p =
      p.predicted_engagement_rate / max i.creator_engagement_rate 0.01 * 0.20 +
      (p.predicted_shares / max p.predicted_likes 1 * 0.25 +
      (p.predicted_comments / max p.predicted_shares 1 * 0.10 +
      (assess_uniqueness i * 0.15 +
      (assess_timing i * 0.10 +
      (assess_trend_alignment i * 0.10 +
      (assess_creator_momentum i * 0.10 + 0)))))) := rfl

theorem tier_gap_uniqueness : assess_uniqueness tier_gap_input = 0.5 := by
  have b1 : str_in "?" ("" : String) = false := by decide
  have b2 : ("1234567890.".data.any (fun c => char_in c ("" : String))) = false := by decide
  have b3 : (emotional_words.any (fun word => str_in word (py_lower ("" : String)))) = false := by
    decide
  simp only [assess_uniqueness, tier_gap_input]
  norm_num [b1, b2, b3]

theorem tier_gap_timing : assess_timing tier_gap_input = 1 := by
  norm_num [assess_timing, tier_gap_input, get_best_posting_hours]

theorem tier_gap_trend : assess_trend_alignment tier_gap_input = 0.3 := by
  norm_num [assess_trend_alignment, tier_gap_input, trending_hashtags]

theorem tier_gap_momentum : assess_creator_momentum tier_gap_input = 0.5 := by
  simp [assess_creator_momentum, tier_gap_input]

theorem tier_gap_clamped : virality_clamped_score tier_gap_input tier_gap_prediction
    = 799951/10000 := by
  have hraw : virality_raw_score tier_gap_input tier_gap_prediction = 3999755/1000000 := by
    rw [virality_raw_score_eq, tier_gap_uniqueness, tier_gap_timing, tier_gap_trend,
      tier_gap_momentum]
    norm_num [tier_gap_input, tier_gap_prediction, max_def]
  norm_num [virality_clamped_score, hraw, max_def, min_def]

theorem pyRound2_799951 : pyRound2 ((799951 : ℚ)/10000) = 80 := by
  have hfl : ⌊(799951 : ℚ)/10000 * 100⌋ = 7999 := by norm_num
  norm_num [pyRound2, roundHalfEven, hfl]

/-- Counterexample for C3: at `tier_gap_input` the clamped virality score
is 79.9951, so the returned `score` field rounds to 80.00 while the tier —
computed from the unrounded value — is "high", contradicting
"score ≥ 80 gives tier viral". -/
theorem c3_tier_threshold_counterexample :
    (predict_virality tier_gap_input tier_gap_prediction).score = 80 ∧
    (predict_virality tier_gap_input tier_gap_prediction).tier = "high" := by
  constructor
  · rw [predict_virality_score_eq, tier_gap_clamped, pyRound2_799951]
  · rw [predict_virality_tier_eq, tier_gap_clamped]
    norm_num

/-- C3 (amended): the returned score is in [0, 100] and equals the clamped
score rounded to two decimals, while the tier thresholds
(≥80 viral, ≥60 high, ≥40 average, else low) are exact with respect to
the *unrounded* clamped score; the two can disagree when rounding crosses
a threshold. -/
theorem c3_virality_score_and_tier (i : PredictionInput) (p : EngagementPrediction) :
    0 ≤ (predict_virality i p).score ∧
    (predict_virality i p).score ≤ 100 ∧
    (predict_virality i p).score = pyRound2 (virality_clamped_score i p) ∧
    (predict_virality i p).tier =
      (if virality_clamped_score i p ≥ 80 then "viral"
       else if virality_clamped_score i p ≥ 60 then "high"
       else if virality_clamped_score i p ≥ 40 then "average"
       else "low") := by
  have h0 : 0 ≤ virality_clamped_score i p := by
    unfold virality_clamped_score
    exact le_min (by norm_num) (le_max_left _ _)
  have h100 : virality_clamped_score i p ≤ 100 := by
    unfold virality_clamped_score
    exact min_le_left _ _
  refine ⟨?_, ?_, predict_virality_score_eq i p, predict_virality_tier_eq i p⟩
  · rw [predict_virality_score_eq i p]
    exact pyRound2_nonneg _ h0
  · rw [predict_virality_score_eq i p]
    have h2 := pyRound2_le (virality_clamped_score i p) 100 (by exact_mod_cast h100)
    exact_mod_cast h2

/-- The "video_duration" entry of the feature dict, as computed by the
code: Python truthiness makes both a missing and a zero duration fall back
to 0.5. -/
theorem video_duration_feature_eq (nl : NumLib) (i : PredictionInput) :
    dictGet (extract_features nl i) "video_duration" 0 =
      (if truthyFloatOpt i.video_duration then min (orZero i.video_duration / 60) 1
       else 0.5) := rfl

/-- Counterexample for C6: with a *present* duration of 0 seconds the
feature is 0.5, not `min(0/60, 1) = 0` as the claim states. -/
theorem c6_present_zero_duration_counterexample :
    zero_duration_input.video_duration = some 0 ∧
    dictGet (extract_features numLib0 zero_duration_input) "video_duration" 0 = 0.5 ∧
    dictGet (extract_features numLib0 zero_duration_input) "video_duration" 0 ≠
      min ((0 : ℚ) / 60) 1 := by
  refine ⟨rfl, ?_, ?_⟩ <;>
    rw [video_duration_feature_eq numLib0 zero_duration_input] <;>
    norm_num [zero_duration_input, truthyFloatOpt]

/-- C6 (amended): the feature equals `min(duration/60, 1)` when a nonzero
duration is present, and 0.5 when the duration is absent *or present but
zero* (Python truthiness of `0.0`). -/
theorem c6_video_duration_feature (nl : NumLib) (i : PredictionInput) :
    (∀ d : ℚ, i.video_duration = some d → d ≠ 0 →
      dictGet (extract_features nl i) "video_duration" 0 = min (d / 60) 1) ∧
    (i.video_duration = none ∨ i.video_duration = some 0 →
      dictGet (extract_features nl i) "video_duration" 0 = 0.5) := by
  constructor
  · intro d hd hne
    rw [video_duration_feature_eq nl i, hd]
    simp [truthyFloatOpt, orZero, bne_iff_ne, hne]
  · rintro (hd | hd) <;> rw [video_duration_feature_eq nl i, hd] <;>
      simp [truthyFloatOpt, orZero]

/-- Witness for C6 (amended), at a present nonzero duration and at a
present zero duration. -/
theorem c6_video_duration_feature_witness :
    dictGet (extract_features numLib0 sample_valid_input) "video_duration" 0 =
      min ((30 : ℚ) / 60) 1 ∧
    dictGet (extract_features numLib0 zero_duration_input) "video_duration" 0 = 0.5 :=
  ⟨(c6_video_duration_feature numLib0 sample_valid_input).1 30 rfl (by norm_num),
   (c6_video_duration_feature numLib0 zero_duration_input).2 (Or.inr rfl)⟩

/-- C7: the caption "why is this happening amazing?" scores exactly
0.8 = min(1, 0.5+0.15+0.15); in general `content_uniqueness` is 0.5, plus
0.15 for a "?", plus 0.1 for a digit or ".", plus 0.15 for an emotional
word in the lowercased caption, capped at 1. -/
theorem c7_content_uniqueness :
    assess_uniqueness question_caption_input = 0.8 ∧
    (0.8 : ℚ) = min 1 (0.5 + 0.15 + 0.15) ∧
    ∀ i : PredictionInput, assess_uniqueness i =
      min 1 ((0.5 : ℚ) + (if str_in "?" i.caption then 0.15 else 0) +
        (if "1234567890.".data.any (fun c => char_in c i.caption) then 0.1 else 0) +
        (if emotional_words.any (fun word => str_in word (py_lower i.caption)) then 0.15
         else 0)) := by
  refine ⟨?_, by norm_num, ?_⟩
  · have b1 : str_in "?" ("why is this happening amazing?" : String) = true := by decide
    have b2 : ("1234567890.".data.any
        (fun c => char_in c ("why is this happening amazing?" : String))) = false := by decide
    have b3 : (emotional_words.any
        (fun word => str_in word (py_lower ("why is this happening amazing?" : String))))
        = true := by decide
    simp only [assess_uniqueness, question_caption_input]
    norm_num [b1, b2, b3]
  · intro i
    simp only [assess_uniqueness]
    split_ifs <;> norm_num

/-- `validate_request` succeeds exactly when every declared bound holds. -/
theorem validate_request_iff (r : EngagementPredictRequest) :
    validate_request r = true ↔
      ((0 ≤ r.media_count ∧ r.media_count ≤ 10) ∧
       (match r.video_duration with | none => True | some d => 0 ≤ d) ∧
       (0 ≤ r.posting_hour ∧ r.posting_hour ≤ 23) ∧
       (0 ≤ r.day_of_week ∧ r.day_of_week ≤ 6) ∧
       0 ≤ r.creator_followers ∧
       (0 ≤ r.creator_engagement_rate ∧ r.creator_engagement_rate ≤ 1) ∧
       0 ≤ r.creator_avg_views) := by
  unfold validate_request
  cases hvd : r.video_duration with
  | none =>
    simp only [hvd, Bool.and_eq_true, decide_eq_true_iff]
    tauto
  | some d =>
    simp only [hvd, Bool.and_eq_true, decide_eq_true_iff]
    tauto

/-- C4: a request with `media_count`, `posting_hour`, `day_of_week` or
`creator_engagement_rate` outside its declared range is rejected by the
input boundary; a request satisfying every declared bound is accepted and
passed through unchanged (no clamping). -/
theorem c4_request_validation (r : EngagementPredictRequest) :
    ((r.media_count < 0 ∨ 10 < r.media_count ∨ r.posting_hour < 0 ∨ 23 < r.posting_hour ∨
      r.day_of_week < 0 ∨ 6 < r.day_of_week ∨ r.creator_engagement_rate < 0 ∨
      1 < r.creator_engagement_rate) → parse_request r = none) ∧
    (((0 ≤ r.media_count ∧ r.media_count ≤ 10) ∧
      (match r.video_duration with | none => True | some d => 0 ≤ d) ∧
      (0 ≤ r.posting_hour ∧ r.posting_hour ≤ 23) ∧
      (0 ≤ r.day_of_week ∧ r.day_of_week ≤ 6) ∧
      0 ≤ r.creator_followers ∧
      (0 ≤ r.creator_engagement_rate ∧ r.creator_engagement_rate ≤ 1) ∧
      0 ≤ r.creator_avg_views) →
      parse_request r = some (to_prediction_input r) ∧
      (to_prediction_input r).media_count = r.media_count ∧
      (to_prediction_input r).posting_hour = r.posting_hour ∧
      (to_prediction_input r).day_of_week = r.day_of_week ∧
      (to_prediction_input r).creator_engagement_rate = r.creator_engagement_rate) := by
  constructor
  · intro h
    have hfalse : ¬ (validate_request r = true) := by
      rw [validate_request_iff]
      rintro ⟨⟨h1, h2⟩, -, ⟨h3, h4⟩, ⟨h5, h6⟩, -, ⟨h7, h8⟩, -⟩
      rcases h with h | h | h | h | h | h | h | h <;> first | omega | linarith
    unfold parse_request
    rw [if_neg hfalse]
  · intro h
    refine ⟨?_, rfl, rfl, rfl, rfl⟩
    unfold parse_request
    rw [if_pos ((validate_request_iff r).mpr h)]

/-- Witness for C4: an hour-24 request is rejected; an in-range request is
accepted unchanged. -/
theorem c4_request_validation_witness :
    parse_request out_of_range_request = none ∧
    parse_request in_range_request = some (to_prediction_input in_range_request) :=
  ⟨(c4_request_validation out_of_range_request).1 (by norm_num [out_of_range_request]),
   ((c4_request_validation in_range_request).2
     (by
       refine ⟨by norm_num [in_range_request], ?_, by norm_num [in_range_request],
         by norm_num [in_range_request], by norm_num [in_range_request],
         by norm_num [in_range_request], by norm_num [in_range_request]⟩
       show (0 : ℚ) ≤ 30
       norm_num)).1⟩

theorem batch_loop_length (nl : NumLib) (fw : List (String × ℚ)) :
    ∀ (l : List PredictionInput) (c : Cache) (idx : ℕ),
      (batch_loop nl fw l c idx).1.length = l.length := by
  intro l
  induction l with
  | nil => intro c idx; rfl
  | cons i rest ih => intro c idx; simp [batch_loop, ih]

/-- C8: the batch endpoint returns one row per request, sorted descending
by predicted engagement rate; the best variant is the head of the sorted
list (`none` exactly for an empty request list), and the improvement tip
is present exactly when there are at least two requests. -/
theorem c8_batch_predict (nl : NumLib) (reqs : List PredictionInput) (c : Cache) :
    (batch_predict nl feature_weights reqs c).1.predictions.length = reqs.length ∧
    List.Sorted variant_order (batch_predict nl feature_weights reqs c).1.predictions ∧
    (batch_predict nl feature_weights reqs c).1.best_variant =
      (batch_predict nl feature_weights reqs c).1.predictions.head? ∧
    ((batch_predict nl feature_weights reqs c).1.predictions = [] ↔ reqs = []) ∧
    ((batch_predict nl feature_weights reqs c).1.improvement_tip.isSome ↔ 2 ≤ reqs.length) := by
  have hlen : (List.insertionSort variant_order
      (batch_loop nl feature_weights reqs c 0).1).length = reqs.length := by
    rw [List.length_insertionSort]
    exact batch_loop_length nl feature_weights reqs c 0
  simp only [batch_predict]
  refine ⟨hlen, List.sorted_insertionSort variant_order _, trivial, ?_, ?_⟩
  · rw [← List.length_eq_zero, hlen, List.length_eq_zero]
  · by_cases h2 : 1 < (List.insertionSort variant_order
        (batch_loop nl feature_weights reqs c 0).1).length
    · rw [if_pos h2]
      rw [hlen] at h2
      simp
      omega
    · rw [if_neg h2]
      rw [hlen] at h2
      simp
      omega
